import Mathlib

/-!
Shallow embedding of the catalog data model in
`src/locallibrary/catalog/models.py` (Django models `Language`, `Genre`,
`Book`, `Author`, `BookInstance`), together with proofs of the spec's
claims about it.

Encoding choices:
* Primary keys of `Language`, `Genre`, `Author`, `Book` are `Nat`; the
  `BookInstance` primary key is its UUID rendered as a `String` (the model
  declares `id = models.UUIDField(primary_key=True, default=uuid.uuid4)`).
* Nullable foreign keys (`Book.author`, `Book.language`,
  `BookInstance.book`) are `Option Nat` holding the referenced primary key.
* The many-to-many association `Book.genre` is the list of associated
  `Genre` primary keys in the association's query order.
* Dates (`date_of_birth`, `date_of_death`, `due_back`) are day numbers
  (`Nat`), optional where the field is `null=True`.
* A database state is the list of rows of each table; Django's
  `on_delete=models.SET_NULL` collector behaviour declared on the foreign
  keys is embedded as explicit delete operations on that state.
* Python's partial attribute dereference (`self.book.title` when
  `self.book` is `None`) is embedded with `Option`.
-/

namespace Catalog

/-- Source `class Language(models.Model)`: `name = models.CharField(max_length=200, ...)`. -/
structure Language where
  id : Nat
  name : String
deriving Repr, DecidableEq

/-- Source `class Genre(models.Model)`: `name = models.CharField(max_length=200, ...)`. -/
structure Genre where
  id : Nat
  name : String
deriving Repr, DecidableEq

/-- Source `class Author(models.Model)`: `first_name`, `last_name` (CharFields),
`date_of_birth`, `date_of_death` (`DateField(null=True, blank=True)`). -/
structure Author where
  id : Nat
  first_name : String
  last_name : String
  date_of_birth : Option Nat := none
  date_of_death : Option Nat := none
deriving Repr, DecidableEq

/-- Source `class Book(models.Model)`: `title`, `summary`, `isbn` (CharFields),
`author = ForeignKey('Author', on_delete=SET_NULL, null=True)`,
`language = ForeignKey('Language', on_delete=SET_NULL, null=True)`,
`genre = ManyToManyField(Genre)`. -/
structure Book where
  id : Nat
  title : String
  author : Option Nat := none
  summary : String
  isbn : String
  genre : List Nat := []
  language : Option Nat := none
deriving Repr, DecidableEq

/-- Source `class BookInstance(models.Model)`: `id = UUIDField(primary_key=True,
default=uuid.uuid4)`, `book = ForeignKey('Book', on_delete=SET_NULL,
null=True)`, `imprint` (CharField), `due_back = DateField(null=True,
blank=True)`, `status = CharField(max_length=1, choices=LOAN_STATUS,
blank=True, default='m')`. -/
structure BookInstance where
  id : String
  book : Option Nat := none
  imprint : String
  due_back : Option Nat := none
  status : String := "m"
deriving Repr, DecidableEq

/-- The database state: one table of rows per model. -/
structure Db where
  languages : List Language := []
  genres : List Genre := []
  authors : List Author := []
  books : List Book := []
  bookinstances : List BookInstance := []
deriving Repr, DecidableEq

/-- Source `BookInstance.LOAN_STATUS`: the `choices` tuple of `(code, display)` pairs. -/
def LOAN_STATUS : List (String × String) :=
  [("m", "Обслуживание"), ("o", "Выдан"), ("a", "Доступен"), ("r", "Зарезервированна")]

/-- Source `Language.__str__`: `return self.name`. -/
def Language.str (l : Language) : String := l.name

/-- Source `Genre.__str__`: `return self.name`. -/
def Genre.str (g : Genre) : String := g.name

/-- Source `Book.__str__`: `return self.title`. -/
def Book.str (b : Book) : String := b.title

/-- Source `Author.__str__`: `return '%s, %s' % (self.last_name, self.first_name)`. -/
def Author.str (a : Author) : String := a.last_name ++ ", " ++ a.first_name

/-- Row lookup by primary key in the `Book` table. -/
def Db.getBook (db : Db) (bid : Nat) : Option Book :=
  db.books.find? (fun b => b.id == bid)

/-- Dereference of the `BookInstance.book` foreign key (`self.book` in
Python): `none` when the key is null or the row is absent. -/
def BookInstance.deref_book (db : Db) (bi : BookInstance) : Option Book :=
  bi.book.bind db.getBook

/-- Source `BookInstance.__str__`: `return '%s (%s)' % (self.book.title, self.id)`.
The attribute access `self.book.title` fails when `self.book` is `None`,
so the result is partial (`Option`). -/
def BookInstance.str (db : Db) (bi : BookInstance) : Option String :=
  (bi.deref_book db).map (fun b => b.title ++ " (" ++ bi.id ++ ")")

/-- Queryset `self.genre.all()`: the queryset of the book's associated genres, in
association (query) order. -/
def Book.genre_all (db : Db) (b : Book) : List Genre :=
  b.genre.filterMap (fun gid => db.genres.find? (fun g => g.id == gid))

/-- Source `Book.display_genre`:
`return ', '.join([genre.name for genre in self.genre.all()[:3]])`. -/
def Book.display_genre (db : Db) (b : Book) : String :=
  String.intercalate ", " (((b.genre_all db).take 3).map Genre.name)

/-- Deleting an `Author` row: `Book.author` declares
`on_delete=models.SET_NULL`, so each dependent `Book` survives with its
`author` key cleared; no other table is touched. -/
def deleteAuthor (db : Db) (aid : Nat) : Db :=
  { db with
    authors := db.authors.filter (fun a => a.id != aid)
    books := db.books.map (fun b =>
      if b.author = some aid then { b with author := none } else b) }

/-- Deleting a `Language` row: `Book.language` declares
`on_delete=models.SET_NULL`, so each dependent `Book` survives with its
`language` key cleared. -/
def deleteLanguage (db : Db) (lid : Nat) : Db :=
  { db with
    languages := db.languages.filter (fun l => l.id != lid)
    books := db.books.map (fun b =>
      if b.language = some lid then { b with language := none } else b) }

/-- Deleting a `Book` row: `BookInstance.book` declares
`on_delete=models.SET_NULL`, so each dependent `BookInstance` survives with
its `book` key cleared. -/
def deleteBook (db : Db) (bid : Nat) : Db :=
  { db with
    books := db.books.filter (fun b => b.id != bid)
    bookinstances := db.bookinstances.map (fun x =>
      if x.book = some bid then { x with book := none } else x) }

/-- Deleting a `Genre` row: the `Book.genre` many-to-many association rows
referencing it are removed (Django cascades deletion of the join-table rows,
never of the `Book` rows themselves). -/
def deleteGenre (db : Db) (gid : Nat) : Db :=
  { db with
    genres := db.genres.filter (fun g => g.id != gid)
    books := db.books.map (fun b =>
      { b with genre := b.genre.filter (fun x => x != gid) }) }

/-- Field validation for `BookInstance.status`
(`CharField(max_length=1, choices=LOAN_STATUS, blank=True)`): the empty
string is accepted because `blank=True`; any other value must be at most
one character (`max_length=1`) and one of the `choices` codes. -/
def validate_status (s : String) : Bool :=
  if s = "" then true
  else decide (s.length ≤ 1) && LOAN_STATUS.any (fun c => c.1 == s)

/-- Creating a `BookInstance` through validated create: an omitted `status`
takes the field default `'m'`; the stored value must pass field validation. -/
def createBookInstance (id : String) (book : Option Nat) (imprint : String)
    (due_back : Option Nat) (status : Option String) : Option BookInstance :=
  if validate_status (status.getD "m") then
    some { id := id, book := book, imprint := imprint, due_back := due_back,
           status := status.getD "m" }
  else none

/-- Updating the `status` field through validated update. -/
def updateStatus (bi : BookInstance) (s : String) : Option BookInstance :=
  if validate_status s then some { bi with status := s } else none

/-- Ascending order on optional due dates, nulls first.
Modelled from the spec: `class Meta: ordering = ["due_back"]` declares
ascending ordering on `due_back`; the placement of null values is the
underlying store's null-ordering convention (nulls first), which is not
part of this repository's source. -/
def nullsFirstLE : Option Nat → Option Nat → Prop
  | none, _ => True
  | some _, none => False
  | some x, some y => x ≤ y

instance decNullsFirstLE : ∀ x y : Option Nat, Decidable (nullsFirstLE x y)
  | none, _ => isTrue trivial
  | some _, none => isFalse (fun h => h)
  | some x, some y => Nat.decLe x y

/-- The comparison `BookInstance.Meta.ordering = ["due_back"]` induces on rows. -/
def dueLE (a b : BookInstance) : Prop := nullsFirstLE a.due_back b.due_back

instance : DecidableRel dueLE := fun a b => decNullsFirstLE a.due_back b.due_back

theorem nullsFirstLE_total (x y : Option Nat) : nullsFirstLE x y ∨ nullsFirstLE y x := by
  rcases x with _ | x <;> rcases y with _ | y <;> simp [nullsFirstLE]
  exact Nat.le_total x y

theorem nullsFirstLE_trans {x y z : Option Nat}
    (h1 : nullsFirstLE x y) (h2 : nullsFirstLE y z) : nullsFirstLE x z := by
  rcases x with _ | x <;> rcases y with _ | y <;> rcases z with _ | z <;>
    simp_all [nullsFirstLE]
  omega

instance : IsTotal BookInstance dueLE :=
  ⟨fun a b => nullsFirstLE_total a.due_back b.due_back⟩

instance : IsTrans BookInstance dueLE :=
  ⟨fun _ _ _ hab hbc => nullsFirstLE_trans hab hbc⟩

/-- The default listing of `BookInstance` rows, sorted per `Meta.ordering`. -/
def defaultInstanceListing (l : List BookInstance) : List BookInstance :=
  l.insertionSort dueLE

/-- Book `b` unchanged in every field except `author`, which is cleared exactly
when it referenced the deleted author `aid`. -/
def onlyAuthorCleared (aid : Nat) (b b' : Book) : Prop :=
  b'.id = b.id ∧ b'.title = b.title ∧ b'.summary = b.summary ∧ b'.isbn = b.isbn ∧
  b'.genre = b.genre ∧ b'.language = b.language ∧
  b'.author = if b.author = some aid then none else b.author

/-- Book `b` unchanged in every field except `language`, which is cleared exactly
when it referenced the deleted language `lid`. -/
def onlyLanguageCleared (lid : Nat) (b b' : Book) : Prop :=
  b'.id = b.id ∧ b'.title = b.title ∧ b'.summary = b.summary ∧ b'.isbn = b.isbn ∧
  b'.genre = b.genre ∧ b'.author = b.author ∧
  b'.language = if b.language = some lid then none else b.language

/-- Row `x` unchanged in every field except `book`, which is cleared exactly
when it referenced the deleted book `bid`. -/
def onlyBookCleared (bid : Nat) (x x' : BookInstance) : Prop :=
  x'.id = x.id ∧ x'.imprint = x.imprint ∧ x'.due_back = x.due_back ∧
  x'.status = x.status ∧
  x'.book = if x.book = some bid then none else x.book

/-- Book `b` unchanged in every field except that genre `gid` is removed from its
genre associations. -/
def onlyGenreRemoved (gid : Nat) (b b' : Book) : Prop :=
  b'.id = b.id ∧ b'.title = b.title ∧ b'.summary = b.summary ∧ b'.isbn = b.isbn ∧
  b'.author = b.author ∧ b'.language = b.language ∧
  b'.genre = b.genre.filter (fun x => x != gid) ∧
  ∀ x, x ∈ b'.genre ↔ x ∈ b.genre ∧ x ≠ gid

theorem validate_status_sound {s : String} (h : validate_status s = true) :
    s = "" ∨ s ∈ LOAN_STATUS.map Prod.fst := by
  unfold validate_status at h
  split at h
  · exact Or.inl (by assumption)
  · right
    simp only [Bool.and_eq_true] at h
    have h2 := h.2
    simp only [LOAN_STATUS, List.any_cons, List.any_nil, Bool.or_eq_true, beq_iff_eq,
      Bool.false_eq_true, List.map, List.mem_cons, List.not_mem_nil, or_false] at h2 ⊢
    rcases h2 with h2 | h2 | h2 | h2 <;> subst h2 <;> simp

/-- C7: for every Author, `__str__` returns exactly
`"{last_name}, {first_name}"`; in particular Jane Austen renders as
"Austen, Jane". -/
theorem author_str_spec :
    (∀ a : Author, a.str = a.last_name ++ ", " ++ a.first_name) ∧
    (Author.mk 1 "Jane" "Austen" none none).str = "Austen, Jane" :=
  ⟨fun _ => rfl, rfl⟩

/-- C3: for every BookInstance whose `book` foreign key references an
existing Book row, `__str__` returns exactly `"{book.title} ({id})"`. -/
theorem bookinstance_str_spec (db : Db) (bi : BookInstance) (bid : Nat) (b : Book)
    (hfk : bi.book = some bid) (hrow : db.getBook bid = some b) :
    bi.str db = some (b.title ++ " (" ++ bi.id ++ ")") := by
  simp [BookInstance.str, BookInstance.deref_book, hfk, hrow]

theorem bookinstance_str_spec_witness :
    (BookInstance.mk "u-1" (some 7) "imp" none "a").str
        (Db.mk [] [] [] [Book.mk 7 "Dune" none "s" "0000000000000" [] none] []) =
      some ("Dune" ++ " (" ++ "u-1" ++ ")") :=
  bookinstance_str_spec _ _ 7 (Book.mk 7 "Dune" none "s" "0000000000000" [] none) rfl rfl

/-- C9: for a BookInstance whose `book` reference is null, `__str__` does
not produce a label: `self.book.title` dereferences a missing Book, so the
operation is undefined (`none`); a label exists only when `book` is
non-null. -/
theorem bookinstance_str_undefined (db : Db) (bi : BookInstance)
    (h : bi.book = none) : bi.str db = none := by
  simp [BookInstance.str, BookInstance.deref_book, h]

theorem bookinstance_str_undefined_witness :
    (BookInstance.mk "u-2" none "imp" none "m").str (Db.mk [] [] [] [] []) = none :=
  bookinstance_str_undefined _ _ rfl

/-- C2: for every Book, `display_genre` is the comma-joined list of the
names of at most the first 3 associated genres, in query order; the number
of rendered names never exceeds 3. -/
theorem display_genre_spec (db : Db) (b : Book) :
    b.display_genre db =
      String.intercalate ", " (((b.genre_all db).map Genre.name).take 3) ∧
    (((b.genre_all db).map Genre.name).take 3).length ≤ 3 := by
  constructor
  · simp [Book.display_genre, List.map_take]
  · rw [List.length_take]
    exact Nat.min_le_left _ _

/-- C6: creating a BookInstance without specifying a status yields a record
whose status is the field default `'m'`. -/
theorem create_default_status (id : String) (book : Option Nat)
    (imprint : String) (due_back : Option Nat) :
    createBookInstance id book imprint due_back none =
      some (BookInstance.mk id book imprint due_back "m") := rfl

/-- C4 fails as stated: the `status` field is declared `blank=True`, so
validated create accepts the empty string, which is not one of the four
`LOAN_STATUS` codes. -/
theorem status_enum_counterexample :
    createBookInstance "copy-1" none "imp" none (some "") =
      some (BookInstance.mk "copy-1" none "imp" none "") ∧
    "" ∉ LOAN_STATUS.map Prod.fst := by
  exact ⟨rfl, by decide⟩

/-- C4 (amended): every BookInstance produced by validated create or
update has a status that is either one of the four `LOAN_STATUS` codes or
the empty string (allowed by `blank=True`). -/
theorem status_domain_invariant (id imprint s : String)
    (book due : Option Nat) (st : Option String) (old bi bi' : BookInstance)
    (hc : createBookInstance id book imprint due st = some bi)
    (hu : updateStatus old s = some bi') :
    (bi.status = "" ∨ bi.status ∈ LOAN_STATUS.map Prod.fst) ∧
    (bi'.status = "" ∨ bi'.status ∈ LOAN_STATUS.map Prod.fst) := by
  unfold createBookInstance at hc
  unfold updateStatus at hu
  constructor
  · split at hc
    · cases hc
      exact validate_status_sound (by assumption)
    · cases hc
  · split at hu
    · cases hu
      exact validate_status_sound (by assumption)
    · cases hu

theorem status_domain_invariant_witness :
    ((BookInstance.mk "c" none "i" none "o").status = "" ∨
      (BookInstance.mk "c" none "i" none "o").status ∈ LOAN_STATUS.map Prod.fst) ∧
    ((BookInstance.mk "c" none "i" none "a").status = "" ∨
      (BookInstance.mk "c" none "i" none "a").status ∈ LOAN_STATUS.map Prod.fst) :=
  status_domain_invariant "c" "i" "a" none none (some "o")
    (BookInstance.mk "c" none "i" none "m")
    (BookInstance.mk "c" none "i" none "o")
    (BookInstance.mk "c" none "i" none "a") rfl rfl

/-- C1: deleting a referenced Author, Language, or Book leaves every
dependent record in place (same row count, pointwise related), changes no
field of a dependent other than the foreign key, and clears that key
exactly on the rows that referenced the deleted entity. -/
theorem delete_referenced_set_null (db : Db) (aid lid bid : Nat) :
    List.Forall₂ (onlyAuthorCleared aid) db.books (deleteAuthor db aid).books ∧
    List.Forall₂ (onlyLanguageCleared lid) db.books (deleteLanguage db lid).books ∧
    List.Forall₂ (onlyBookCleared bid) db.bookinstances (deleteBook db bid).bookinstances := by
  refine ⟨?_, ?_, ?_⟩
  · simp only [deleteAuthor]
    rw [List.forall₂_map_right_iff, List.forall₂_same]
    intro b hb
    by_cases h : b.author = some aid <;> simp [onlyAuthorCleared, h]
  · simp only [deleteLanguage]
    rw [List.forall₂_map_right_iff, List.forall₂_same]
    intro b hb
    by_cases h : b.language = some lid <;> simp [onlyLanguageCleared, h]
  · simp only [deleteBook]
    rw [List.forall₂_map_right_iff, List.forall₂_same]
    intro x hx
    by_cases h : x.book = some bid <;> simp [onlyBookCleared, h]

/-- C10: deleting a Genre leaves every Book row in place and unchanged
except that the deleted genre's id is removed from its many-to-many
association list; BookInstance rows are untouched. -/
theorem delete_genre_frame (db : Db) (gid : Nat) :
    List.Forall₂ (onlyGenreRemoved gid) db.books (deleteGenre db gid).books ∧
    (deleteGenre db gid).bookinstances = db.bookinstances := by
  constructor
  · simp only [deleteGenre]
    rw [List.forall₂_map_right_iff, List.forall₂_same]
    intro b hb
    refine ⟨rfl, rfl, rfl, rfl, rfl, rfl, rfl, ?_⟩
    intro x
    simp [List.mem_filter]
  · rfl

/-- C5: the default BookInstance listing is a permutation of the table
sorted ascending by `due_back`, and every row with a null `due_back`
precedes every row with a set due date. -/
theorem default_ordering_spec (l : List BookInstance) :
    List.Perm (defaultInstanceListing l) l ∧
    List.Sorted dueLE (defaultInstanceListing l) ∧
    List.Pairwise (fun a b => b.due_back = none → a.due_back = none)
      (defaultInstanceListing l) := by
  refine ⟨List.perm_insertionSort dueLE l, List.sorted_insertionSort dueLE l, ?_⟩
  refine List.Pairwise.imp ?_ (List.sorted_insertionSort dueLE l)
  intro a b hab hbn
  have hab' : nullsFirstLE a.due_back b.due_back := hab
  rcases ha : a.due_back with _ | x
  · rfl
  · rw [ha, hbn] at hab'
    exact absurd hab' (fun h => h)

end Catalog
